import Mathlib

/-!
Verification of `src/sidecar/main.py` (the "Meta Deep Search" sidecar stub).

The Python program reads a query from standard input, decomposes it into three
fixed branches (Historical, Theoretical, Practical), issues one substring LIKE
lookup per branch against an embedded graph database — using the wildcard
wrapped *original* query for every branch — joins the rows found (or uses a
sentinel when none match), and prints a labeled synthesis block.

The embedding below translates the source line by line.  The external storage
engine (kuzudb) is abstracted as a `Storage` value: a connect step that may
fail and a deterministic query function from (pattern, limit) to either an
error or an ordered list of row texts.
-/

namespace Sidecar

/-- Errors the external storage layer may raise: the database path cannot be
opened, or the query execution itself fails inside the engine. -/
inductive StorageError where
  | storageUnavailable
  | queryExecutionFailure
deriving DecidableEq

/-- Abstraction of the embedded database used by `connect_db` / `cursor`:
`connect` models `kuzudb.connect(DB_PATH)` (it may fail, e.g. path not
writable), and `execQuery pat lim` models
`cursor.execute("MATCH (n:Knowledge) WHERE n.text LIKE ? RETURN n LIMIT lim", [pat])`
followed by `fetchall()`, returning the ordered row texts. -/
structure Storage where
  connect : Except StorageError Unit
  execQuery : String → Nat → Except StorageError (List String)

/-- The branch list built at the top of `meta_deep_search`: three fixed
(label, subquery) pairs derived from the input query by string templates. -/
def branches (query : String) : List (String × String) :=
  [("Historical", "What is the historical context of: " ++ query),
   ("Theoretical", "What are the theoretical principles behind: " ++ query),
   ("Practical", "What practical examples or proofs exist for: " ++ query)]

/-- The wildcard-wrapped LIKE pattern the loop body passes to
`cursor.execute`: in the source, the f-string wrapping `query` in `%` signs. -/
def wildcard (query : String) : String :=
  "%" ++ query ++ "%"

/-- The per-branch evidence text: `'\n'.join(rows) if rows else
"(no local evidence found)"` from the loop body. -/
def branchContext (rows : List String) : String :=
  if rows.isEmpty then "(no local evidence found)" else String.intercalate "\n" rows

/-- The `for label, subquery in branches` loop of `meta_deep_search`.
Returns the trace of (pattern, limit) lookups actually issued together with
either the first storage error (which in Python aborts the loop as an
exception) or the accumulated `answers` list of (label, subquery, context). -/
def gatherStep (st : Storage) (query : String) :
    List (String × String) →
    List (String × Nat) × Except StorageError (List (String × String × String))
  | [] => ([], Except.ok [])
  | (lbl, sq) :: bs =>
      match st.execQuery (wildcard query) 5 with
      | Except.error e => ([(wildcard query, 5)], Except.error e)
      | Except.ok rows =>
          let rest := gatherStep st query bs
          ((wildcard query, 5) :: rest.1,
           match rest.2 with
           | Except.error e => Except.error e
           | Except.ok answers => Except.ok ((lbl, sq, branchContext rows) :: answers))

/-- One line of the synthesis: the f-string
`"[bold red]{lbl}[/]: {ctx}"` applied to an answer triple. -/
def formatLine (a : String × String × String) : String :=
  "[bold red]" ++ a.1 ++ "[/]: " ++ a.2.2

/-- The final string built by `meta_deep_search`: the literal header followed
by the newline-join of the formatted branch lines. -/
def synthesize (answers : List (String × String × String)) : String :=
  "Tree-of-Thoughts Synthesis:\n" ++ String.intercalate "\n" (answers.map formatLine)

/-- `meta_deep_search(query)`: connect to the database, run the branch loop,
synthesize.  Any storage error propagates uncaught. -/
def meta_deep_search (st : Storage) (query : String) : Except StorageError String :=
  match st.connect with
  | Except.error e => Except.error e
  | Except.ok _ =>
      match (gatherStep st query (branches query)).2 with
      | Except.error e => Except.error e
      | Except.ok answers => Except.ok (synthesize answers)

/-- The (pattern, limit) pairs actually sent to the storage engine during one
invocation of `meta_deep_search`: none if connecting fails, otherwise the
trace of the branch loop up to the first query failure. -/
def issuedLookups (st : Storage) (query : String) : List (String × Nat) :=
  match st.connect with
  | Except.error _ => []
  | Except.ok _ => (gatherStep st query (branches query)).1

/-- Observable outcome of one process invocation: what was written to
standard output, and the exit code. -/
structure ProcResult where
  stdout : String
  exitCode : Nat
deriving DecidableEq

/-- Removal of leading and trailing whitespace from a character list. -/
def stripChars (l : List Char) : List Char :=
  (((l.dropWhile Char.isWhitespace).reverse).dropWhile Char.isWhitespace).reverse

/-- Python's `str.strip()`: the input with leading and trailing whitespace
removed, as applied by `main` to the text read from standard input. -/
def strip (s : String) : String :=
  ⟨stripChars s.data⟩

/-- `main()`: read all of standard input, strip surrounding whitespace, run
`meta_deep_search`, print the result followed by a newline.  An uncaught
storage error terminates the process with a non-zero exit code before
anything reaches standard output. -/
def main (st : Storage) (stdin : String) : ProcResult :=
  match meta_deep_search st (strip stdin) with
  | Except.ok out => ⟨out ++ "\n", 0⟩
  | Except.error _ => ⟨"", 1⟩

/-- The answers list `meta_deep_search` accumulates when every branch lookup
returns the same `rows` (as happens with any deterministic storage): one
triple per branch, all sharing the evidence text `branchContext rows`. -/
def branchAnswers (q : String) (rows : List String) : List (String × String × String) :=
  (branches q).map (fun b => (b.1, b.2, branchContext rows))

/-- Plain-text rendering of rich-style square-bracket markup, one character
at a time: outside a tag (`false` state) an opening bracket switches into a
tag and every other character is kept; inside a tag (`true` state) characters
are discarded up to and including the closing bracket. -/
def stripTagsAux : Bool → List Char → List Char
  | _, [] => []
  | true, c :: cs => if c = ']' then stripTagsAux false cs else stripTagsAux true cs
  | false, c :: cs => if c = '[' then stripTagsAux true cs else c :: stripTagsAux false cs

/-- Plain-text rendering of a styled string: all `[...]` markup tags removed,
as the rich library does when writing to a non-terminal target. -/
def renderPlain (s : String) : String :=
  ⟨stripTagsAux false s.data⟩

/-- `occursIn needle hay`: `needle` occurs in `hay` as a contiguous
substring. -/
def occursIn (needle hay : String) : Bool :=
  hay.data.tails.any (fun t => needle.data.isPrefixOf t)

/-- Modelled from the spec: evaluation of the SQL LIKE patterns this program
issues (always of the shape `"%" ++ q ++ "%"`): a row text matches when the
text between the two wildcard signs occurs in it as a substring.  The kuzudb
engine that evaluates `n.text LIKE ?` is external to `src/`; §4.1 of the
spec defines this substring-match contract. -/
def likeMatch (pat text : String) : Bool :=
  occursIn ((pat.drop 1).dropRight 1) text

/-- Modelled from the spec: `query_substring(connection, pattern, limit)` of
the storage accessor — returns at most `limit` matching rows in engine
order, and the empty sequence (never an error) when zero rows match. -/
def query_substring (db : List String) (pat : String) (limit : Nat) : List String :=
  (db.filter (fun t => likeMatch pat t)).take limit

/-- A storage value backed by the spec-modelled engine over a fixed list of
Knowledge-node texts. -/
def mkStorage (db : List String) : Storage :=
  ⟨Except.ok (), fun pat lim => Except.ok (query_substring db pat lim)⟩

/-- A storage whose every lookup finds the two rows `"a"` and `"b"`. -/
def stTwoRows : Storage :=
  ⟨Except.ok (), fun _ _ => Except.ok ["a", "b"]⟩

/-- A storage whose every lookup finds no rows. -/
def stNoRows : Storage :=
  ⟨Except.ok (), fun _ _ => Except.ok []⟩

/-- A storage that behaves like `stNoRows` at every limit other than 0; it
agrees with `stNoRows` on the lookups the program issues. -/
def stNoRowsAlt : Storage :=
  ⟨Except.ok (), fun _ lim => if lim = 0 then Except.ok ["never"] else Except.ok []⟩

/-- A storage whose connect step fails (e.g. the database path is not
writable). -/
def stDown : Storage :=
  ⟨Except.error StorageError.storageUnavailable, fun _ _ => Except.ok []⟩

/-- A storage that connects but whose every query fails inside the engine. -/
def stQueryFails : Storage :=
  ⟨Except.ok (), fun _ _ => Except.error StorageError.queryExecutionFailure⟩

/-- When the (deterministic) lookup succeeds with `rows`, the branch loop
issues one `(wildcard q, 5)` lookup per branch and produces one answer per
branch, all carrying the same evidence text `branchContext rows`. -/
theorem gatherStep_ok (st : Storage) (q : String) (rows : List String)
    (hq : st.execQuery (wildcard q) 5 = Except.ok rows) (bs : List (String × String)) :
    gatherStep st q bs =
      (List.replicate bs.length (wildcard q, 5),
       Except.ok (bs.map (fun b => (b.1, b.2, branchContext rows)))) := by
  induction bs with
  | nil => rfl
  | cons b bs ih =>
      obtain ⟨lbl, sq⟩ := b
      simp [gatherStep, hq, ih, List.replicate_succ]

/-- When the lookup fails, the branch loop aborts at its first iteration:
exactly one lookup was issued and the error propagates. -/
theorem gatherStep_error (st : Storage) (q : String) (e : StorageError)
    (hq : st.execQuery (wildcard q) 5 = Except.error e)
    (lbl sq : String) (bs : List (String × String)) :
    gatherStep st q ((lbl, sq) :: bs) = ([(wildcard q, 5)], Except.error e) := by
  simp [gatherStep, hq]

/-- The branch loop only consults the storage at the pattern `wildcard q`
with limit 5: two storages agreeing there run it identically. -/
theorem gatherStep_congr (st₁ st₂ : Storage) (q : String)
    (hq : st₁.execQuery (wildcard q) 5 = st₂.execQuery (wildcard q) 5)
    (bs : List (String × String)) :
    gatherStep st₁ q bs = gatherStep st₂ q bs := by
  induction bs with
  | nil => rfl
  | cons b bs ih =>
      obtain ⟨lbl, sq⟩ := b
      simp only [gatherStep, hq, ih]

/-- Newline-free text contributes no characters to a newline count. -/
theorem count_append_str (c : Char) (s t : String) :
    ((s ++ t).data).count c = s.data.count c + t.data.count c := by
  rw [String.data_append, List.count_append]

/-- Outside a tag, the renderer copies a bracket-free block verbatim. -/
theorem stripTagsAux_append_of_no_open (l₁ l₂ : List Char) (h : '[' ∉ l₁) :
    stripTagsAux false (l₁ ++ l₂) = l₁ ++ stripTagsAux false l₂ := by
  induction l₁ with
  | nil => rfl
  | cons c cs ih =>
      simp only [List.mem_cons, not_or] at h
      simp [stripTagsAux, Ne.symm h.1, ih h.2]

/-- Outside a tag, the renderer copies a bracket-free string verbatim. -/
theorem stripTagsAux_of_no_open (l : List Char) (h : '[' ∉ l) :
    stripTagsAux false l = l := by
  have h2 := stripTagsAux_append_of_no_open l [] h
  simpa [stripTagsAux] using h2

/-- Inside a tag, the renderer discards everything up to and including the
first closing bracket. -/
theorem stripTagsAux_true_append (l₁ l₂ : List Char) (h : ']' ∉ l₁) :
    stripTagsAux true (l₁ ++ ']' :: l₂) = stripTagsAux false l₂ := by
  induction l₁ with
  | nil => simp [stripTagsAux]
  | cons c cs ih =>
      simp only [List.mem_cons, not_or] at h
      simp [stripTagsAux, Ne.symm h.1, ih h.2]

/-- Claim C2: for every input text `q` (including the empty string), the
decomposition step returns exactly 3 (label, subquery) pairs in the fixed
order Historical, Theoretical, Practical, with the three fixed template
texts; it is a total function of `q` and never fails. -/
theorem decompose_fixed_three (q : String) :
    branches q =
      [("Historical", "What is the historical context of: " ++ q),
       ("Theoretical", "What are the theoretical principles behind: " ++ q),
       ("Practical", "What practical examples or proofs exist for: " ++ q)] ∧
    (branches q).length = 3 ∧
    (branches q).map Prod.fst = ["Historical", "Theoretical", "Practical"] :=
  ⟨rfl, rfl, rfl⟩

/-- Claim C1: every lookup the program issues against the storage uses the
wildcard-wrapped original query with limit 5; when the storage answers, all
three branch lookups are exactly `(wildcard q, 5)`; and the pattern is never
the (wildcard-wrapped) branch-specific subquery text, which is a strictly
longer string. -/
theorem lookups_use_original_query (st : Storage) (q : String) :
    (∀ pl ∈ issuedLookups st q, pl = (wildcard q, 5)) ∧
    (st.connect = Except.ok () → ∀ rows, st.execQuery (wildcard q) 5 = Except.ok rows →
      issuedLookups st q = List.replicate 3 (wildcard q, 5)) ∧
    (∀ b ∈ branches q, wildcard q ≠ wildcard b.2 ∧ wildcard q ≠ b.2) := by
  refine ⟨?_, ?_, ?_⟩
  · intro pl hpl
    unfold issuedLookups at hpl
    cases hc : st.connect with
    | error e => rw [hc] at hpl; simp at hpl
    | ok u =>
        rw [hc] at hpl
        cases hq : st.execQuery (wildcard q) 5 with
        | error e =>
            rw [show branches q = ("Historical", "What is the historical context of: " ++ q) ::
              (branches q).tail from rfl, gatherStep_error st q e hq] at hpl
            simpa using hpl
        | ok rows =>
            rw [gatherStep_ok st q rows hq] at hpl
            exact List.eq_of_mem_replicate hpl
  · intro hc rows hq
    unfold issuedLookups
    rw [hc, gatherStep_ok st q rows hq]
    rfl
  · intro b hb
    have key : ∀ s : String, 2 < s.length →
        wildcard q ≠ wildcard (s ++ q) ∧ wildcard q ≠ s ++ q := by
      intro s hs
      constructor
      · intro h
        have h2 := congrArg String.length h
        simp only [wildcard, String.length_append, show ("%" : String).length = 1 from rfl] at h2
        omega
      · intro h
        have h2 := congrArg String.length h
        simp only [wildcard, String.length_append, show ("%" : String).length = 1 from rfl] at h2
        omega
    simp only [branches, List.mem_cons, List.not_mem_nil, or_false] at hb
    rcases hb with hb | hb | hb <;> subst hb
    · exact key "What is the historical context of: " (by decide)
    · exact key "What are the theoretical principles behind: " (by decide)
    · exact key "What practical examples or proofs exist for: " (by decide)

/-- Witness for C1 at a concrete storage and query: the three issued
lookups all use the wildcard-wrapped original query with limit 5. -/
theorem lookups_use_original_query_witness :
    issuedLookups stNoRows "gravity" = List.replicate 3 (wildcard "gravity", 5) :=
  (lookups_use_original_query stNoRows "gravity").2.1 rfl [] rfl

/-- Claim C3: when a branch lookup returns `rows`, every branch answer
carries evidence text `branchContext rows`, which is the newline-join of the
rows when some were found and the sentinel `"(no local evidence found)"`
when none were; an empty result is an ordinary `Except.ok`, not an error. -/
theorem evidence_join_or_sentinel (st : Storage) (q : String) (rows : List String)
    (hq : st.execQuery (wildcard q) 5 = Except.ok rows) :
    (gatherStep st q (branches q)).2 = Except.ok (branchAnswers q rows) ∧
    (rows ≠ [] → branchContext rows = String.intercalate "\n" rows) ∧
    (rows = [] → branchContext rows = "(no local evidence found)") ∧
    branchContext ["a", "b"] = "a\nb" := by
  refine ⟨?_, ?_, ?_, rfl⟩
  · rw [gatherStep_ok st q rows hq]; rfl
  · intro h
    simp [branchContext, h]
  · intro h
    subst h
    rfl

/-- Witness for C3 at a concrete storage returning `["a", "b"]`: the loop
succeeds with all three branches carrying the joined evidence `"a\nb"`. -/
theorem evidence_join_or_sentinel_witness :
    (gatherStep stTwoRows "q" (branches "q")).2 = Except.ok (branchAnswers "q" ["a", "b"]) ∧
    branchContext ["a", "b"] = "a\nb" :=
  ⟨(evidence_join_or_sentinel stTwoRows "q" ["a", "b"] rfl).1,
   (evidence_join_or_sentinel stTwoRows "q" ["a", "b"] rfl).2.2.2⟩

/-- Joining three strings with newline separators. -/
theorem intercalate_three (a b c : String) :
    String.intercalate "\n" [a, b, c] = a ++ "\n" ++ b ++ "\n" ++ c := by
  simp [String.intercalate, String.intercalate.go]

/-- Counterexample to C4 as stated: with a storage returning the two rows
`["a", "b"]` for every lookup, the synthesized output starts with the header
but has 6 newline characters after it — i.e. 6 subsequent lines, not
exactly 3, because each branch's evidence text is itself multi-line. -/
theorem synthesis_three_lines_counterexample :
    meta_deep_search stTwoRows "q" = Except.ok
      "Tree-of-Thoughts Synthesis:\n[bold red]Historical[/]: a\nb\n[bold red]Theoretical[/]: a\nb\n[bold red]Practical[/]: a\nb" ∧
    ("Tree-of-Thoughts Synthesis:\n[bold red]Historical[/]: a\nb\n[bold red]Theoretical[/]: a\nb\n[bold red]Practical[/]: a\nb").data.count '\n' = 6 :=
  ⟨rfl, by decide⟩

/-- Claim C4 (amended): the synthesized output starts with the literal header
`"Tree-of-Thoughts Synthesis:\n"` and consists of exactly 3 subsequent branch
entries joined by newlines, one per branch in order Historical, Theoretical,
Practical; whenever every branch's evidence text is newline-free (in
particular when at most one newline-free row matches), the output contains
exactly 3 subsequent lines. -/
theorem synthesis_header_and_entries (st : Storage) (q : String) (rows : List String)
    (hc : st.connect = Except.ok ()) (hq : st.execQuery (wildcard q) 5 = Except.ok rows) :
    meta_deep_search st q = Except.ok (synthesize (branchAnswers q rows)) ∧
    "Tree-of-Thoughts Synthesis:\n".data <+: (synthesize (branchAnswers q rows)).data ∧
    (branchAnswers q rows).map Prod.fst = ["Historical", "Theoretical", "Practical"] ∧
    ((branchContext rows).data.count '\n' = 0 →
      (synthesize (branchAnswers q rows)).data.count '\n' = 3) := by
  refine ⟨?_, ?_, rfl, ?_⟩
  · unfold meta_deep_search
    rw [hc, gatherStep_ok st q rows hq]
    rfl
  · refine ⟨(String.intercalate "\n" ((branchAnswers q rows).map formatLine)).data, ?_⟩
    rw [show synthesize (branchAnswers q rows) =
          "Tree-of-Thoughts Synthesis:\n" ++
            String.intercalate "\n" ((branchAnswers q rows).map formatLine) from rfl,
        String.data_append]
  · intro h0
    have hb : (branchAnswers q rows).map formatLine =
        ["[bold red]Historical[/]: " ++ branchContext rows,
         "[bold red]Theoretical[/]: " ++ branchContext rows,
         "[bold red]Practical[/]: " ++ branchContext rows] := rfl
    rw [show synthesize (branchAnswers q rows) =
          "Tree-of-Thoughts Synthesis:\n" ++
            String.intercalate "\n" ((branchAnswers q rows).map formatLine) from rfl,
        hb, intercalate_three]
    simp only [count_append_str, h0]
    decide

/-- Witness for the amended C4 at a concrete empty storage: the output is
synthesized and has exactly 3 subsequent lines. -/
theorem synthesis_header_and_entries_witness :
    meta_deep_search stNoRows "gravity" = Except.ok (synthesize (branchAnswers "gravity" [])) ∧
    (synthesize (branchAnswers "gravity" [])).data.count '\n' = 3 :=
  ⟨(synthesis_header_and_entries stNoRows "gravity" [] rfl rfl).1,
   (synthesis_header_and_entries stNoRows "gravity" [] rfl rfl).2.2.2 (by decide)⟩

/-- Rendering a styled branch line as plain text yields exactly
`label ++ ": " ++ evidence`, provided the label and evidence hold no opening
bracket of their own. -/
theorem renderPlain_tagged (lbl ctx : String) (hl : '[' ∉ lbl.data) (hc : '[' ∉ ctx.data) :
    renderPlain ("[bold red]" ++ lbl ++ "[/]: " ++ ctx) = lbl ++ ": " ++ ctx := by
  apply String.ext
  show stripTagsAux false ("[bold red]" ++ lbl ++ "[/]: " ++ ctx).data = (lbl ++ ": " ++ ctx).data
  simp only [String.data_append, List.append_assoc, List.cons_append, List.nil_append]
  simp +decide only [stripTagsAux, if_true, if_false]
  rw [stripTagsAux_append_of_no_open lbl.data _ hl]
  simp +decide only [stripTagsAux, if_true, if_false]
  rw [stripTagsAux_of_no_open ctx.data hc]

/-- Claim C5: each branch's line in the synthesized output is the styled
string `"[bold red]" ++ label ++ "[/]: " ++ evidence`; stripping the
square-bracket markup (as a plain-text renderer does) leaves exactly
`label ++ ": " ++ evidence`, so the markup is presentation-only and the
data contract of the line is `"<label>: <evidence_text>"`. -/
theorem line_contract_plain (answers : List (String × String × String))
    (a : String × String × String) (ha : a ∈ answers)
    (hl : '[' ∉ a.1.data) (hc : '[' ∉ a.2.2.data) :
    formatLine a ∈ answers.map formatLine ∧
    formatLine a = "[bold red]" ++ a.1 ++ "[/]: " ++ a.2.2 ∧
    renderPlain (formatLine a) = a.1 ++ ": " ++ a.2.2 :=
  ⟨List.mem_map_of_mem formatLine ha, rfl, renderPlain_tagged a.1 a.2.2 hl hc⟩

/-- Witness for C5 at a concrete answer triple: the styled line renders to
the plain contract string. -/
theorem line_contract_plain_witness :
    renderPlain (formatLine ("Historical", "sub", "e1")) = "Historical: e1" :=
  (line_contract_plain [("Historical", "sub", "e1")] ("Historical", "sub", "e1")
    (by simp) (by decide) (by decide)).2.2

/-- Claim C6: if connecting to the storage fails, or the branch lookup
fails, the whole invocation fails: `meta_deep_search` propagates the error
uncaught, the process exits non-zero and nothing is written to standard
output. -/
theorem failure_is_atomic (st : Storage) (stdin : String) (e : StorageError) :
    (st.connect = Except.error e →
      meta_deep_search st (strip stdin) = Except.error e ∧
      main st stdin = ⟨"", 1⟩) ∧
    (st.connect = Except.ok () →
      st.execQuery (wildcard (strip stdin)) 5 = Except.error e →
      meta_deep_search st (strip stdin) = Except.error e ∧
      main st stdin = ⟨"", 1⟩) := by
  constructor
  · intro hc
    have hm : meta_deep_search st (strip stdin) = Except.error e := by
      unfold meta_deep_search
      rw [hc]
    exact ⟨hm, by unfold main; rw [hm]⟩
  · intro hc hq
    have hm : meta_deep_search st (strip stdin) = Except.error e := by
      unfold meta_deep_search
      rw [hc,
          show branches (strip stdin) =
            ("Historical", "What is the historical context of: " ++ strip stdin) ::
              (branches (strip stdin)).tail from rfl,
          gatherStep_error st (strip stdin) e hq]
    exact ⟨hm, by unfold main; rw [hm]⟩

/-- Witness for C6: with a storage whose connect step fails, the process
exits with code 1 and an empty standard output. -/
theorem failure_is_atomic_witness :
    meta_deep_search stDown (strip "x") = Except.error StorageError.storageUnavailable ∧
    main stDown "x" = ⟨"", 1⟩ :=
  (failure_is_atomic stDown "x" StorageError.storageUnavailable).1 rfl

/-- Claim C7: the entry point strips surrounding whitespace from standard
input, feeds the stripped query to the pipeline, and on success writes the
synthesized text followed by a newline with exit code 0; two inputs with the
same stripped form produce identical process results. -/
theorem entry_point_strips_and_prints (st : Storage) (s₁ s₂ out : String) :
    (meta_deep_search st (strip s₁) = Except.ok out → main st s₁ = ⟨out ++ "\n", 0⟩) ∧
    (strip s₁ = strip s₂ → main st s₁ = main st s₂) := by
  constructor
  · intro h
    unfold main
    rw [h]
  · intro h
    unfold main
    rw [h]

/-- Witness for C7: a padded and an unpadded spelling of the same query
yield the same process result, and the padded run prints the synthesis plus
newline with exit code 0. -/
theorem entry_point_strips_and_prints_witness :
    main stNoRows "  gravity\n" = main stNoRows "gravity" ∧
    main stNoRows "  gravity\n" = ⟨synthesize (branchAnswers "gravity" []) ++ "\n", 0⟩ :=
  ⟨(entry_point_strips_and_prints stNoRows "  gravity\n" "gravity" "").2 (by decide),
   (entry_point_strips_and_prints stNoRows "  gravity\n" ""
      (synthesize (branchAnswers "gravity" []))).1 rfl⟩

/-- Claim C8: every lookup the program issues carries limit 5; the
spec-modelled storage accessor returns at most 5 rows for it and the empty
sequence — an ordinary value, not an error — when no row matches; the
evidence text of every branch is built from exactly those at most 5 rows. -/
theorem limit_five_rows (db : List String) (q : String) :
    (∀ pl ∈ issuedLookups (mkStorage db) q, pl.2 = 5) ∧
    (query_substring db (wildcard q) 5).length ≤ 5 ∧
    ((∀ t ∈ db, likeMatch (wildcard q) t = false) →
      query_substring db (wildcard q) 5 = []) ∧
    (gatherStep (mkStorage db) q (branches q)).2 =
      Except.ok (branchAnswers q (query_substring db (wildcard q) 5)) := by
  refine ⟨?_, ?_, ?_, ?_⟩
  · intro pl hpl
    have h := ((lookups_use_original_query (mkStorage db) q).1) pl hpl
    rw [h]
  · exact le_trans (List.length_take_le 5 _) (le_refl 5)
  · intro h
    unfold query_substring
    rw [List.filter_eq_nil_iff.mpr (by simpa using h)]
    rfl
  · exact (evidence_join_or_sentinel (mkStorage db) q (query_substring db (wildcard q) 5) rfl).1

/-- Witness for C8: a database of seven matching rows yields only five, and
a database with no matching row yields the empty sequence. -/
theorem limit_five_rows_witness :
    (query_substring ["r1", "r2", "r3", "r4", "r5", "r6", "r7"] (wildcard "r") 5).length ≤ 5 ∧
    query_substring ["alpha", "beta"] (wildcard "zzz") 5 = [] :=
  ⟨(limit_five_rows ["r1", "r2", "r3", "r4", "r5", "r6", "r7"] "r").2.1,
   (limit_five_rows ["alpha", "beta"] "zzz").2.2.1 (by decide)⟩

/-- Claim C9: the program is deterministic in its inputs: its observable
result is a function of the standard-input text and of the storage's
responses at the lookups the program makes, so two invocations against
storages answering alike (in particular, the same unchanged storage) with
identical input produce identical output. -/
theorem deterministic_output (st₁ st₂ : Storage) (s : String)
    (hc : st₁.connect = st₂.connect)
    (hq : st₁.execQuery (wildcard (strip s)) 5 = st₂.execQuery (wildcard (strip s)) 5) :
    main st₁ s = main st₂ s := by
  have hm : meta_deep_search st₁ (strip s) = meta_deep_search st₂ (strip s) := by
    unfold meta_deep_search
    rw [hc, gatherStep_congr st₁ st₂ (strip s) hq (branches (strip s))]
  unfold main
  rw [hm]

/-- Witness for C9: two distinct storage values that answer the issued
lookup alike produce identical process results. -/
theorem deterministic_output_witness :
    main stNoRows "x" = main stNoRowsAlt "x" :=
  deterministic_output stNoRows stNoRowsAlt "x" rfl rfl

/-- Claim C10: with any (deterministic) storage, the three branches of one
invocation carry pairwise equal evidence texts, and the branch subquery
texts never influence the synthesized line of a branch. -/
theorem branches_same_evidence (st : Storage) (q : String)
    (answers : List (String × String × String))
    (h : (gatherStep st q (branches q)).2 = Except.ok answers) :
    (∀ a ∈ answers, ∀ b ∈ answers, a.2.2 = b.2.2) ∧
    (∀ lbl sq sq' ctx, formatLine (lbl, sq, ctx) = formatLine (lbl, sq', ctx)) := by
  constructor
  · cases hq : st.execQuery (wildcard q) 5 with
    | error e =>
        rw [show branches q =
              ("Historical", "What is the historical context of: " ++ q) ::
                (branches q).tail from rfl,
            gatherStep_error st q e hq] at h
        simp at h
    | ok rows =>
        rw [gatherStep_ok st q rows hq] at h
        have hans : answers = (branches q).map (fun b => (b.1, b.2, branchContext rows)) :=
          (Except.ok.injEq _ _).mp h.symm
        subst hans
        intro a ha b hb
        obtain ⟨ba, _, hba⟩ := List.mem_map.mp ha
        obtain ⟨bb, _, hbb⟩ := List.mem_map.mp hb
        rw [← hba, ← hbb]
  · intro lbl sq sq' ctx
    rfl

/-- Witness for C10: with the two-row storage, the Historical and Practical
branches carry the same evidence text. -/
theorem branches_same_evidence_witness :
    ("Historical", "What is the historical context of: q", branchContext ["a", "b"]).2.2 =
      ("Practical", "What practical examples or proofs exist for: q",
        branchContext ["a", "b"]).2.2 :=
  (branches_same_evidence stTwoRows "q" (branchAnswers "q" ["a", "b"]) rfl).1
    ("Historical", "What is the historical context of: q", branchContext ["a", "b"])
    (by decide)
    ("Practical", "What practical examples or proofs exist for: q", branchContext ["a", "b"])
    (by decide)

end Sidecar
